import Mathlib

/-!
Shallow embedding of the contract_backend trade-stream core.

The definitions below are translated from the TypeScript sources:
  - src/utils/trade_stream_util.ts   (TradeStreamManager: the per-mint evaluator)
  - src/services/contract_service.ts (ContractService: contract persistence)
  - src/services/stream_manager_service.ts (StreamManagerService: the supervisor)
  - src/services/user_contract_service.ts  (UserContractService: user_contract persistence)
  - scoring-manager.ts               (ContractScoringService: raw/display scoring)
  - src/config/supabase.ts           (status enum and row schemas)

JavaScript numbers are modelled as rationals (ℚ); Date values as rational
millisecond timestamps.  The database tables and the in-memory maps of the manager
are modelled as lists; Map / Set semantics are given by the association-list
helpers alistGet / alistSet.  The wall clock (new Date()) and the SOL price
(awaited from the oracle) are passed as explicit parameters.
-/

namespace ContractBackend

/-- UserContractStatus enum from src/config/supabase.ts:
InProgress = 0, CompletedCondition1 = 1, CompletedCondition2 = 2, Broken = 3. -/
inductive UserContractStatus
  | inProgress
  | completedCondition1
  | completedCondition2
  | broken
deriving DecidableEq, Repr

/-- The completion_reason union of the contract schema (src/config/supabase.ts). -/
inductive CompletionReason
  | market_cap
  | time_expired
  | manual
deriving DecidableEq, Repr

/-- A row of the user_contract table (src/config/supabase.ts UserContract). -/
structure UserContractRow where
  contract_id : ℤ
  user_address : String
  supply : ℚ
  status : UserContractStatus
deriving DecidableEq, Repr

/-- A row of the contract table (src/config/supabase.ts Contract);
condition2 is the deadline timestamp, completed_at a timestamp when set. -/
structure ContractRow where
  id : ℤ
  mint : String
  condition1 : ℚ
  condition2 : ℚ
  is_completed : Bool
  completion_reason : Option CompletionReason
  completed_at : Option ℚ
deriving DecidableEq, Repr

/-- An inbound trade frame (trade_stream_util.ts TradeMessage).  traderPublicKey
and the legacy user field may be absent on a raw frame, hence Option. -/
structure TradeMessage where
  signature : String := ""
  mint : String
  traderPublicKey : Option String := none
  user : Option String := none
  txType : String := "buy"
  tokenAmount : ℚ := 0
  solAmount : ℚ := 0
  newTokenBalance : ℚ := 0
  marketCapSol : ℚ := 0
deriving DecidableEq, Repr

/-- Per-mint stream configuration (trade_stream_util.ts StreamConfig);
callbacks are dropped, the mutable allTimeHigh field is kept. -/
structure StreamConfig where
  mintAddress : String
  signers : List String
  condition1 : ℚ
  condition2 : ℚ
  contractId : ℤ
  allTimeHigh : ℚ
deriving DecidableEq, Repr

/-- Registry entry of StreamManagerService.activeStreams (stream_manager_service.ts). -/
structure ActiveStreamInfo where
  contractId : ℤ
  mintAddress : String
  startedAt : ℚ
  condition1 : ℚ
  condition2 : ℚ
  signersCount : ℕ
deriving DecidableEq, Repr

/-- The combined mutable state the stream code acts on: the streamConfigs map and subscriptions set of the
TradeStreamManager, the two database tables, and the
activeStreams registry of the supervisor. -/
structure SystemState where
  streamConfigs : List (String × StreamConfig)
  subscriptions : List String
  userContracts : List UserContractRow
  contracts : List ContractRow
  activeStreams : List (ℤ × ActiveStreamInfo)
deriving DecidableEq, Repr

/-- Lookup in an association list, the model of Map.get. -/
def alistGet {α β : Type} [DecidableEq α] (l : List (α × β)) (k : α) : Option β :=
  (l.find? (fun p => decide (p.1 = k))).map (fun p => p.2)

/-- Insert-or-replace in an association list, the model of Map.set. -/
def alistSet {α β : Type} [DecidableEq α] (l : List (α × β)) (k : α) (v : β) :
    List (α × β) :=
  (k, v) :: l.filter (fun p => !(decide (p.1 = k)))

/-- Coalesced trader address: trade.traderPublicKey || trade.user
(trade_stream_util.ts lines 306 and 402). -/
def traderOf (trade : TradeMessage) : Option String :=
  trade.traderPublicKey.orElse (fun _ => trade.user)

/-- TradeStreamManager.stopTradeStream: delete the mint from streamConfigs and
subscriptions (the WebSocket close when no subscriptions remain has no
observable effect on this state). -/
def stopTradeStream (st : SystemState) (mintAddress : String) : SystemState :=
  { st with
    streamConfigs := st.streamConfigs.filter (fun p => !(decide (p.1 = mintAddress))),
    subscriptions := st.subscriptions.filter (fun m => !(decide (m = mintAddress))) }

/-- TradeStreamManager.checkCondition2: currentTime >= config.condition2. -/
def checkCondition2 (now : ℚ) (config : StreamConfig) : Bool :=
  decide (config.condition2 ≤ now)

/-- Modelled from the spec: UserContractService.updateUserContractStatus is called
from trade_stream_util.ts (next to a source comment saying the method still needs
to be added to UserContractService) but its implementation is not among the sources.  The
persistence port of the spec lists update_user_contract_status(cid, addr, status),
which updates the row keyed by (contract_id, user_address) to the new status. -/
def updateUserContractStatus (st : SystemState) (cid : ℤ) (addr : String)
    (status : UserContractStatus) : SystemState :=
  { st with userContracts := st.userContracts.map (fun r =>
      if r.contract_id = cid ∧ r.user_address = addr then { r with status := status } else r) }

/-- UserContractService.getUserContract: select the row with matching
contract_id and user_address. -/
def getUserContract (st : SystemState) (cid : ℤ) (addr : String) :
    Option UserContractRow :=
  st.userContracts.find? (fun r =>
    decide (r.contract_id = cid) && decide (r.user_address = addr))

/-- UserContractService.getUserContractsByContractId: all rows of a contract. -/
def getUserContractsByContractId (st : SystemState) (cid : ℤ) :
    List UserContractRow :=
  st.userContracts.filter (fun r => decide (r.contract_id = cid))

/-- TradeStreamManager.checkAllUsersFailed: no row of the contract has status
InProgress any more. -/
def checkAllUsersFailed (st : SystemState) (cid : ℤ) : Bool :=
  ((getUserContractsByContractId st cid).filter
    (fun uc => decide (uc.status = UserContractStatus.inProgress))).isEmpty

/-- ContractService.getContractById: select the contract row by id. -/
def getContractById (st : SystemState) (cid : ℤ) : Option ContractRow :=
  st.contracts.find? (fun c => decide (c.id = cid))

/-- StreamManagerService.isStreamActive. -/
def isStreamActive (st : SystemState) (cid : ℤ) : Bool :=
  (alistGet st.activeStreams cid).isSome

/-- StreamManagerService.stopStreamForContract: look the registry entry up,
stop the trade stream for its mint, remove the registry entry. -/
def stopStreamForContract (st : SystemState) (cid : ℤ) : SystemState :=
  match alistGet st.activeStreams cid with
  | none => st
  | some info =>
      let st1 := stopTradeStream st info.mintAddress
      { st1 with activeStreams := st1.activeStreams.filter (fun p => !(decide (p.1 = cid))) }

/-- ContractService.updateContract: a Partial row update applied to the
contract with the given id (the update object becomes the function f). -/
def updateContract (st : SystemState) (cid : ℤ) (f : ContractRow → ContractRow) :
    SystemState :=
  { st with contracts := st.contracts.map (fun c => if c.id = cid then f c else c) }

/-- ContractService.markContractCompleted: stop the stream when one is active,
then updateContract with the single field is_completed := true. -/
def markContractCompleted (st : SystemState) (cid : ℤ) : SystemState :=
  let st1 := if isStreamActive st cid then stopStreamForContract st cid else st
  updateContract st1 cid (fun c => { c with is_completed := true })

/-- TradeStreamManager.completeContractSuccessfully: set every InProgress row of
the contract to CompletedCondition1 (one updateUserContractStatus call per row),
then markContractCompleted. -/
def completeContractSuccessfully (st : SystemState) (cid : ℤ) : SystemState :=
  let inProgressUsers := (getUserContractsByContractId st cid).filter
      (fun uc => decide (uc.status = UserContractStatus.inProgress))
  let st1 := inProgressUsers.foldl
      (fun s uc =>
        updateUserContractStatus s cid uc.user_address
          UserContractStatus.completedCondition1) st
  markContractCompleted st1 cid

/-- TradeStreamManager.completeContractAllFailed: only markContractCompleted. -/
def completeContractAllFailed (st : SystemState) (cid : ℤ) : SystemState :=
  markContractCompleted st cid

/-- TradeStreamManager.shouldProcessTrade: with a non-empty signer list, only
trades whose coalesced trader address is in the list pass. -/
def shouldProcessTrade (trade : TradeMessage) (config : StreamConfig) : Bool :=
  if config.signers.length > 0 then
    match traderOf trade with
    | none => false
    | some t => decide (t ∈ config.signers)
  else true

/-- The ATH update step of processTradeWithContractLogic:
if (trade.marketCapSol > config.allTimeHigh) config.allTimeHigh = trade.marketCapSol. -/
def updateATH (config : StreamConfig) (trade : TradeMessage) : StreamConfig :=
  if trade.marketCapSol > config.allTimeHigh then
    { config with allTimeHigh := trade.marketCapSol }
  else config

/-- TradeStreamManager.processTradeWithContractLogic, with the awaited SOL price
passed in (the success case of getSolPrice).  The in-place mutation of
config.allTimeHigh is modelled by writing the updated config back into the
streamConfigs map under its mint key. -/
def processTradeWithContractLogic (solPrice : ℚ) (st : SystemState)
    (trade : TradeMessage) (config : StreamConfig) : SystemState :=
  let config1 := updateATH config trade
  let st1 := { st with streamConfigs := alistSet st.streamConfigs config1.mintAddress config1 }
  let athMarketCapUSD := config1.allTimeHigh * solPrice
  if config1.condition1 ≤ athMarketCapUSD then
    stopTradeStream (completeContractSuccessfully st1 config1.contractId) config1.mintAddress
  else
    match traderOf trade with
    | none => st1
    | some traderAddress =>
      if traderAddress ∈ config1.signers then
        match getUserContract st1 config1.contractId traderAddress with
        | none => st1
        | some userContract =>
          if userContract.status = UserContractStatus.inProgress then
            if trade.newTokenBalance < userContract.supply then
              let st2 := updateUserContractStatus st1 config1.contractId traderAddress
                UserContractStatus.broken
              if checkAllUsersFailed st2 config1.contractId then
                stopTradeStream (completeContractAllFailed st2 config1.contractId)
                  config1.mintAddress
              else st2
            else st1
          else st1
      else st1

/-- TradeStreamManager.handleTradeMessage for a frame carrying a mint: look the
stream config up; when condition2 has been reached only stop the stream and
return; otherwise apply the signer filter and, when it passes, run
processTradeWithContractLogic. -/
def handleTradeMessage (now solPrice : ℚ) (st : SystemState)
    (message : TradeMessage) : SystemState :=
  match alistGet st.streamConfigs message.mint with
  | none => st
  | some config =>
    if checkCondition2 now config then
      stopTradeStream st message.mint
    else if shouldProcessTrade message config then
      processTradeWithContractLogic solPrice st message config
    else st

/-- StreamManagerService.startStreamForContract (the non-throwing path, with
retries not taken): load the contract, refuse when missing, completed, without
signers, or expired; then start_trades_stream validates the mint length,
replaces the streamConfigs entry with a fresh config (allTimeHigh = 0), adds
the subscription, and on success the registry entry is replaced.  The Bool is
the returned success flag. -/
def startStreamForContract (now : ℚ) (st : SystemState) (cid : ℤ) :
    SystemState × Bool :=
  match getContractById st cid with
  | none => (st, false)
  | some contract =>
    if contract.is_completed then (st, false)
    else
      let signers := (getUserContractsByContractId st cid).map (fun uc => uc.user_address)
      if signers.length = 0 then (st, false)
      else if contract.condition2 ≤ now then (st, false)
      else if contract.mint.length < 32 then (st, false)
      else
        let config : StreamConfig :=
          { mintAddress := contract.mint, signers := signers,
            condition1 := contract.condition1, condition2 := contract.condition2,
            contractId := cid, allTimeHigh := 0 }
        let st1 := { st with
          streamConfigs := alistSet st.streamConfigs contract.mint config,
          subscriptions :=
            if contract.mint ∈ st.subscriptions then st.subscriptions
            else st.subscriptions ++ [contract.mint] }
        let st2 := { st1 with
          activeStreams := alistSet st1.activeStreams cid
            { contractId := cid, mintAddress := contract.mint, startedAt := now,
              condition1 := contract.condition1, condition2 := contract.condition2,
              signersCount := signers.length } }
        (st2, true)

/-- The fields of TradeStreamManager that attemptReconnect reads or writes:
connection flag, attempt counter, backoff base, the subscription set and the
contract ids of the registered stream configs (the onError fan-out targets). -/
structure ReconnectState where
  connected : Bool
  reconnectAttempts : ℕ
  reconnectDelay : ℚ
  subscriptions : List String
  configContractIds : List ℤ
deriving DecidableEq, Repr

/-- What a call to attemptReconnect does besides updating the state: give up
and deliver the fatal error to every registered config, or schedule a
reconnect after the computed delay. -/
inductive ReconnectAction
  | giveUp (notifiedContractIds : List ℤ)
  | scheduleRetry (delayMs : ℚ)
deriving DecidableEq, Repr

/-- TradeStreamManager.maxReconnectAttempts. -/
def maxReconnectAttempts : ℕ := 5

/-- TradeStreamManager.attemptReconnect: when the attempt counter has reached
the maximum, call onError on every config and return (the state, including the
subscription set, is left untouched); otherwise increment the counter and
schedule a reconnect after reconnectDelay * 2 ^ (attempts - 1). -/
def attemptReconnect (s : ReconnectState) : ReconnectState × ReconnectAction :=
  if maxReconnectAttempts ≤ s.reconnectAttempts then
    (s, ReconnectAction.giveUp s.configContractIds)
  else
    let attempts := s.reconnectAttempts + 1
    ({ s with reconnectAttempts := attempts },
     ReconnectAction.scheduleRetry (s.reconnectDelay * 2 ^ (attempts - 1)))

/-- The JSON body of the SOL-price endpoint (SolPriceResponse): the solPrice
field is optional. -/
structure SolPriceBody where
  solPrice : Option ℚ
deriving DecidableEq, Repr

/-- An HTTP response as the fetch call observes it: status code and decoded
JSON body. -/
structure FetchResponse where
  status : ℕ
  body : SolPriceBody
deriving DecidableEq, Repr

/-- TradeStreamManager.getSolPrice: a fetch or JSON-parse failure is rethrown;
otherwise the solPrice field of the body is returned as-is — the HTTP status is
never inspected and a missing field yields undefined (none), not an error. -/
def getSolPrice (fetchResult : Except String FetchResponse) :
    Except String (Option ℚ) :=
  match fetchResult with
  | Except.error e => Except.error e
  | Except.ok response => Except.ok response.body.solPrice

end ContractBackend

namespace ContractBackend.Scoring

/-- SCORING_CONFIG.MAX_BUY_AMOUNT_FOR_BONUS (scoring-manager.ts). -/
def MAX_BUY_AMOUNT_FOR_BONUS : ℚ := 30000000

/-- SCORING_CONFIG.PENALTY_MULTIPLIER. -/
def PENALTY_MULTIPLIER : ℚ := 2

/-- SCORING_CONFIG.BASE_SCORE_MULTIPLIER = 0.000003. -/
def BASE_SCORE_MULTIPLIER : ℚ := 3 / 1000000

/-- SCORING_CONFIG.ASYMPTOTE_LIMIT. -/
def ASYMPTOTE_LIMIT : ℚ := 1000000

/-- SCORING_CONFIG.ASYMPTOTE_SCALING_FACTOR. -/
def ASYMPTOTE_SCALING_FACTOR : ℚ := 1000000

/-- SCORING_CONFIG.CONDITION2_MIN_SCORE. -/
def CONDITION2_MIN_SCORE : ℚ := 0

/-- SCORING_CONFIG.CONDITION2_WEEK_SCORE. -/
def CONDITION2_WEEK_SCORE : ℚ := 1

/-- SCORING_CONFIG.CONDITION2_MAX_SCORE. -/
def CONDITION2_MAX_SCORE : ℚ := 25

/-- SCORING_CONFIG.CONDITION2_WEEK_THRESHOLD_DAYS. -/
def CONDITION2_WEEK_THRESHOLD_DAYS : ℤ := 7

/-- SCORING_CONFIG.CONDITION2_MAX_THRESHOLD_DAYS. -/
def CONDITION2_MAX_THRESHOLD_DAYS : ℤ := 180

/-- The trueCondition type 1 | 2 of ContractEvent. -/
inductive TrueCondition
  | one
  | two
deriving DecidableEq, Repr

/-- ContractEvent (scoring-manager.ts); signed_at as an optional millisecond
timestamp; the meta fields condition1 and condition2 carry no behaviour and
are omitted. -/
structure ContractEvent where
  userId : String
  contractRespected : Bool
  buyAmount : ℚ
  diffWithCondition : ℚ
  trueCondition : TrueCondition
  signed_at : Option ℚ := none
deriving DecidableEq, Repr

/-- calculationDetails of ScoreCalculationResult. -/
structure CalculationDetails where
  baseBuyScore : ℚ
  cappedBuyAmount : ℚ
  diffMultiplier : ℚ
  finalContractScore : ℚ
  penaltyApplied : Bool
  condition2Applied : Bool
deriving DecidableEq, Repr

/-- ScoreCalculationResult with the raw total kept explicit; the displayed
newScore field of the source is recovered below as ScoreCalculationResult.newScore,
the asymptote applied to newRawScore. -/
structure ScoreCalculationResult where
  userId : String
  previousScore : ℚ
  scoreChange : ℚ
  newRawScore : ℚ
  calculationDetails : CalculationDetails
deriving DecidableEq, Repr

/-- The userScores map of ContractScoringService: raw totals keyed by user id,
absent keys read as 0. -/
def UserScores : Type := String → Option ℚ

/-- ContractScoringService.getUserRawScore: this.userScores.get(userId) ?? 0. -/
def getUserRawScore (scores : UserScores) (userId : String) : ℚ :=
  (scores userId).getD 0

/-- ContractScoringService.setUserRawScore: this.userScores.set(userId, rawScore). -/
def setUserRawScore (scores : UserScores) (userId : String) (rawScore : ℚ) :
    UserScores :=
  fun u => if u = userId then some rawScore else scores u

/-- Milliseconds in a day, as in calculateCondition2Score. -/
def msInDay : ℚ := 24 * 60 * 60 * 1000

/-- ContractScoringService.calculateCondition2Score with the wall clock passed
in: age in whole days (floored, clamped at 0), then the piecewise 0 / 1 / 25 /
linear-interpolation score. -/
def calculateCondition2Score (now : ℚ) (signedAt : Option ℚ) : ℚ :=
  match signedAt with
  | none => CONDITION2_MIN_SCORE
  | some t =>
    let ageDays : ℤ := max 0 ⌊(now - t) / msInDay⌋
    if ageDays < CONDITION2_WEEK_THRESHOLD_DAYS then CONDITION2_MIN_SCORE
    else if ageDays = CONDITION2_WEEK_THRESHOLD_DAYS then CONDITION2_WEEK_SCORE
    else if CONDITION2_MAX_THRESHOLD_DAYS ≤ ageDays then CONDITION2_MAX_SCORE
    else
      let progress : ℚ := ((ageDays : ℚ) - (CONDITION2_WEEK_THRESHOLD_DAYS : ℚ)) /
        ((CONDITION2_MAX_THRESHOLD_DAYS : ℚ) - (CONDITION2_WEEK_THRESHOLD_DAYS : ℚ))
    CONDITION2_WEEK_SCORE + progress * (CONDITION2_MAX_SCORE - CONDITION2_WEEK_SCORE)

/-- ContractScoringService.processContractEvent: the condition-2 path adds the
time-based score, the normal path adds base * multiplier with the doubled,
sign-flipped penalty; the new RAW total is stored without any clamping. -/
def processContractEvent (now : ℚ) (scores : UserScores) (event : ContractEvent) :
    UserScores × ScoreCalculationResult :=
  let prevRaw := getUserRawScore scores event.userId
  match event.trueCondition with
  | TrueCondition.two =>
    let rawChange := calculateCondition2Score now event.signed_at
    let newRaw := prevRaw + rawChange
    (setUserRawScore scores event.userId newRaw,
     { userId := event.userId, previousScore := prevRaw, scoreChange := rawChange,
       newRawScore := newRaw,
       calculationDetails :=
         { baseBuyScore := 0,
           cappedBuyAmount := min event.buyAmount MAX_BUY_AMOUNT_FOR_BONUS,
           diffMultiplier := 0, finalContractScore := rawChange,
           penaltyApplied := false, condition2Applied := true } })
  | TrueCondition.one =>
    let capped := min (max 0 event.buyAmount) MAX_BUY_AMOUNT_FOR_BONUS
    let baseBuyScore := capped * BASE_SCORE_MULTIPLIER
    let diffMultiplier := 1 + event.diffWithCondition / 100
    let unsignedScore := baseBuyScore * diffMultiplier
    let isPenalty := !event.contractRespected
    let signedDelta :=
      if isPenalty then -PENALTY_MULTIPLIER * unsignedScore else unsignedScore
    let newRaw := prevRaw + signedDelta
    (setUserRawScore scores event.userId newRaw,
     { userId := event.userId, previousScore := prevRaw, scoreChange := signedDelta,
       newRawScore := newRaw,
       calculationDetails :=
         { baseBuyScore := baseBuyScore, cappedBuyAmount := capped,
           diffMultiplier := diffMultiplier, finalContractScore := signedDelta,
           penaltyApplied := isPenalty, condition2Applied := false } })

/-- ContractScoringService.applyAsymptote:
Math.tanh(rawScore / ASYMPTOTE_SCALING_FACTOR) * ASYMPTOTE_LIMIT. -/
noncomputable def applyAsymptote (rawScore : ℝ) : ℝ :=
  Real.tanh (rawScore / ((ASYMPTOTE_SCALING_FACTOR : ℚ) : ℝ)) * ((ASYMPTOTE_LIMIT : ℚ) : ℝ)

/-- The displayed newScore field of the result record of the source: the asymptote
applied to the new raw total. -/
noncomputable def ScoreCalculationResult.newScore (r : ScoreCalculationResult) : ℝ :=
  applyAsymptote ((r.newRawScore : ℚ) : ℝ)

end ContractBackend.Scoring


namespace ContractBackend

/-! Concrete instances used by the counterexample and witness theorems. -/

/-- Stream config of contract 1 on mint M with deadline 100 and signer A. -/
def cfgC1 : StreamConfig :=
  { mintAddress := "M", signers := ["A"], condition1 := 1000000, condition2 := 100,
    contractId := 1, allTimeHigh := 0 }

/-- User A committed 500 tokens to contract 1, still in progress. -/
def rowC1 : UserContractRow :=
  { contract_id := 1, user_address := "A", supply := 500,
    status := UserContractStatus.inProgress }

/-- Contract 1: target one million USD, deadline 100, not completed. -/
def conC1 : ContractRow :=
  { id := 1, mint := "M", condition1 := 1000000, condition2 := 100,
    is_completed := false, completion_reason := none, completed_at := none }

/-- Registry entry for contract 1. -/
def asiC1 : ActiveStreamInfo :=
  { contractId := 1, mintAddress := "M", startedAt := 0, condition1 := 1000000,
    condition2 := 100, signersCount := 1 }

/-- Full state with contract 1 live on mint M. -/
def stC1 : SystemState :=
  { streamConfigs := [("M", cfgC1)], subscriptions := ["M"], userContracts := [rowC1],
    contracts := [conC1], activeStreams := [(1, asiC1)] }

/-- A trade on mint M from signer A arriving at the deadline. -/
def msgC1 : TradeMessage :=
  { mint := "M", traderPublicKey := some ("A"), marketCapSol := 50, newTokenBalance := 500 }

/-- Stream config of contract 2 on mint M2: USD target 100000, deadline 1000. -/
def cfgC2 : StreamConfig :=
  { mintAddress := "M2", signers := ["A"], condition1 := 100000, condition2 := 1000,
    contractId := 2, allTimeHigh := 0 }

/-- User A committed 500 tokens to contract 2. -/
def rowC2 : UserContractRow :=
  { contract_id := 2, user_address := "A", supply := 500,
    status := UserContractStatus.inProgress }

/-- Contract 2 row. -/
def conC2 : ContractRow :=
  { id := 2, mint := "M2", condition1 := 100000, condition2 := 1000,
    is_completed := false, completion_reason := none, completed_at := none }

/-- Registry entry for contract 2. -/
def asiC2 : ActiveStreamInfo :=
  { contractId := 2, mintAddress := "M2", startedAt := 0, condition1 := 100000,
    condition2 := 1000, signersCount := 1 }

/-- Full state with contract 2 live on mint M2. -/
def stC2 : SystemState :=
  { streamConfigs := [("M2", cfgC2)], subscriptions := ["M2"], userContracts := [rowC2],
    contracts := [conC2], activeStreams := [(2, asiC2)] }

/-- A non-signer trade on mint M2 whose market cap (5000 SOL, about 500000 USD at
price 100) is far above the 100000 USD target. -/
def msgC2 : TradeMessage :=
  { mint := "M2", traderPublicKey := some ("C"), marketCapSol := 5000, newTokenBalance := 0 }

/-- Contract 3: pending, with both completion metadata fields unset. -/
def conC3 : ContractRow :=
  { id := 3, mint := "M3", condition1 := 5, condition2 := 100,
    is_completed := false, completion_reason := none, completed_at := none }

/-- State holding only contract 3, with no active stream. -/
def stC3 : SystemState :=
  { streamConfigs := [], subscriptions := [], userContracts := [],
    contracts := [conC3], activeStreams := [] }

/-- A mint identifier long enough to pass the 32-character validation. -/
def mint32 : String := "AAAAAAAAAAAAAAAAAAAAAAAAAAAAAAAA"

/-- Contract 7 on the long mint, deadline 200, not completed. -/
def conC4 : ContractRow :=
  { id := 7, mint := mint32, condition1 := 1000000, condition2 := 200,
    is_completed := false, completion_reason := none, completed_at := none }

/-- Running stream config of contract 7 whose ATH has reached 800 SOL. -/
def cfgC4 : StreamConfig :=
  { mintAddress := mint32, signers := ["A"], condition1 := 1000000, condition2 := 200,
    contractId := 7, allTimeHigh := 800 }

/-- Registry entry for contract 7. -/
def asiC4 : ActiveStreamInfo :=
  { contractId := 7, mintAddress := mint32, startedAt := 0, condition1 := 1000000,
    condition2 := 200, signersCount := 1 }

/-- User A committed 500 tokens to contract 7. -/
def rowC4 : UserContractRow :=
  { contract_id := 7, user_address := "A", supply := 500,
    status := UserContractStatus.inProgress }

/-- Full state with contract 7 already active (ATH 800). -/
def stC4 : SystemState :=
  { streamConfigs := [(mint32, cfgC4)], subscriptions := [mint32], userContracts := [rowC4],
    contracts := [conC4], activeStreams := [(7, asiC4)] }

/-- Reconnect state that has used up all five attempts, with a live
subscription and one registered config. -/
def sGiveUp : ReconnectState :=
  { connected := false, reconnectAttempts := 5, reconnectDelay := 1000,
    subscriptions := ["M"], configContractIds := [1] }

/-- Reconnect state before the third attempt. -/
def sRetry : ReconnectState :=
  { connected := false, reconnectAttempts := 2, reconnectDelay := 1000,
    subscriptions := ["M"], configContractIds := [1] }

/-- Stream config of contract 1 on mint M7 used by the break-check witness. -/
def cfgC7 : StreamConfig :=
  { mintAddress := "M7", signers := ["A"], condition1 := 1000000, condition2 := 1000,
    contractId := 1, allTimeHigh := 0 }

/-- User A committed 500 tokens, in progress. -/
def rowC7 : UserContractRow :=
  { contract_id := 1, user_address := "A", supply := 500,
    status := UserContractStatus.inProgress }

/-- Contract 1 row for the break-check witness. -/
def conC7 : ContractRow :=
  { id := 1, mint := "M7", condition1 := 1000000, condition2 := 1000,
    is_completed := false, completion_reason := none, completed_at := none }

/-- Full state for the break-check witness. -/
def stC7 : SystemState :=
  { streamConfigs := [("M7", cfgC7)], subscriptions := ["M7"], userContracts := [rowC7],
    contracts := [conC7], activeStreams := [] }

/-- A signer trade whose new balance 499 is strictly below the committed 500. -/
def tradeC7 : TradeMessage :=
  { mint := "M7", traderPublicKey := some ("A"), marketCapSol := 10, newTokenBalance := 499 }

end ContractBackend

namespace ContractBackend.Scoring

/-- Empty score store (no keys present). -/
def scoresC10 : UserScores := fun _ => none

/-- A scoring event for user alice. -/
def eventC10 : ContractEvent :=
  { userId := "alice", contractRespected := true, buyAmount := 1000000,
    diffWithCondition := 100, trueCondition := TrueCondition.one, signed_at := none }

end ContractBackend.Scoring

namespace ContractBackend

/-! Helper lemmas about the embedded operations. -/

/-- updateATH only touches the allTimeHigh field. -/
@[simp] lemma updateATH_mintAddress (c : StreamConfig) (t : TradeMessage) :
    (updateATH c t).mintAddress = c.mintAddress := by
  unfold updateATH; split <;> rfl

/-- updateATH preserves the signer list. -/
@[simp] lemma updateATH_signers (c : StreamConfig) (t : TradeMessage) :
    (updateATH c t).signers = c.signers := by
  unfold updateATH; split <;> rfl

/-- updateATH preserves condition1. -/
@[simp] lemma updateATH_condition1 (c : StreamConfig) (t : TradeMessage) :
    (updateATH c t).condition1 = c.condition1 := by
  unfold updateATH; split <;> rfl

/-- updateATH preserves condition2. -/
@[simp] lemma updateATH_condition2 (c : StreamConfig) (t : TradeMessage) :
    (updateATH c t).condition2 = c.condition2 := by
  unfold updateATH; split <;> rfl

/-- updateATH preserves the contract id. -/
@[simp] lemma updateATH_contractId (c : StreamConfig) (t : TradeMessage) :
    (updateATH c t).contractId = c.contractId := by
  unfold updateATH; split <;> rfl

/-- Reading a key back right after alistSet returns the stored value. -/
lemma alistGet_alistSet_self {α β : Type} [DecidableEq α]
    (l : List (α × β)) (k : α) (v : β) : alistGet (alistSet l k v) k = some v := by
  simp [alistGet, alistSet]

/-- Finding an erased key in a filtered association list fails. -/
lemma find_eraseKey {α β : Type} [DecidableEq α] (l : List (α × β)) (k : α) :
    (l.filter (fun p => !(decide (p.1 = k)))).find? (fun p => decide (p.1 = k)) = none := by
  induction l with
  | nil => rfl
  | cons a t ih =>
    by_cases h : a.1 = k
    · simp [List.filter_cons, h, ih]
    · simp [List.filter_cons, h, ih]

/-- Filtering a key out of an association list makes lookups of it fail. -/
lemma alistGet_eraseKey {α β : Type} [DecidableEq α] (l : List (α × β)) (k : α) :
    alistGet (l.filter (fun p => !(decide (p.1 = k)))) k = none := by
  simp [alistGet, find_eraseKey]

/-- stopTradeStream does not touch the database tables or the registry. -/
@[simp] lemma stopTradeStream_userContracts (st : SystemState) (m : String) :
    (stopTradeStream st m).userContracts = st.userContracts := rfl

/-- stopTradeStream leaves the contract table unchanged. -/
@[simp] lemma stopTradeStream_contracts (st : SystemState) (m : String) :
    (stopTradeStream st m).contracts = st.contracts := rfl

/-- stopStreamForContract leaves the user_contract table unchanged. -/
@[simp] lemma stopStreamForContract_userContracts (st : SystemState) (cid : ℤ) :
    (stopStreamForContract st cid).userContracts = st.userContracts := by
  unfold stopStreamForContract
  cases alistGet st.activeStreams cid <;> rfl

/-- stopStreamForContract leaves the contract table unchanged. -/
@[simp] lemma stopStreamForContract_contracts (st : SystemState) (cid : ℤ) :
    (stopStreamForContract st cid).contracts = st.contracts := by
  unfold stopStreamForContract
  cases alistGet st.activeStreams cid <;> rfl

/-- updateContract leaves the user_contract table unchanged. -/
@[simp] lemma updateContract_userContracts (st : SystemState) (cid : ℤ)
    (f : ContractRow → ContractRow) :
    (updateContract st cid f).userContracts = st.userContracts := rfl

/-- markContractCompleted leaves the user_contract table unchanged. -/
@[simp] lemma markContractCompleted_userContracts (st : SystemState) (cid : ℤ) :
    (markContractCompleted st cid).userContracts = st.userContracts := by
  unfold markContractCompleted
  split <;> simp

/-- The contract table after markContractCompleted: the row with the given id
gets is_completed := true, nothing else changes. -/
lemma markContractCompleted_contracts (st : SystemState) (cid : ℤ) :
    (markContractCompleted st cid).contracts =
      st.contracts.map (fun c => if c.id = cid then { c with is_completed := true } else c) := by
  unfold markContractCompleted updateContract
  split <;> simp

/-- completeContractAllFailed leaves the user_contract table unchanged. -/
@[simp] lemma completeContractAllFailed_userContracts (st : SystemState) (cid : ℤ) :
    (completeContractAllFailed st cid).userContracts = st.userContracts := by
  unfold completeContractAllFailed
  simp

/-- Updating the status of the (cid, addr) rows rewrites exactly the row that
getUserContract returns. -/
lemma find_row_update (l : List UserContractRow) (cid : ℤ) (addr : String)
    (status : UserContractStatus) (uc : UserContractRow)
    (h : l.find? (fun r => decide (r.contract_id = cid) && decide (r.user_address = addr)) =
      some uc) :
    (l.map (fun r => if r.contract_id = cid ∧ r.user_address = addr then
        { r with status := status } else r)).find?
      (fun r => decide (r.contract_id = cid) && decide (r.user_address = addr)) =
      some { uc with status := status } := by
  induction l with
  | nil => simp at h
  | cons a t ih =>
    by_cases ha : a.contract_id = cid ∧ a.user_address = addr
    · have hp : (decide (a.contract_id = cid) && decide (a.user_address = addr)) = true := by
        simp [ha.1, ha.2]
      have hfind : (a :: t).find?
          (fun r => decide (r.contract_id = cid) && decide (r.user_address = addr)) = some a :=
        List.find?_cons_of_pos t hp
      rw [hfind] at h
      have hau : a = uc := by injection h
      subst hau
      simp only [List.map_cons, if_pos ha]
      have hp2 : (decide ((({ a with status := status } : UserContractRow)).contract_id = cid) &&
          decide ((({ a with status := status } : UserContractRow)).user_address = addr)) = true := by
        simp [ha.1, ha.2]
      exact List.find?_cons_of_pos _ hp2
    · have hp : ¬ ((decide (a.contract_id = cid) && decide (a.user_address = addr)) = true) := by
        simp only [Bool.and_eq_true, decide_eq_true_eq]
        exact ha
      have hfind : (a :: t).find?
          (fun r => decide (r.contract_id = cid) && decide (r.user_address = addr)) =
          t.find? (fun r => decide (r.contract_id = cid) && decide (r.user_address = addr)) :=
        List.find?_cons_of_neg t hp
      rw [hfind] at h
      simp only [List.map_cons, if_neg ha]
      have hfind2 : (a :: (t.map (fun r =>
          if r.contract_id = cid ∧ r.user_address = addr then
            { r with status := status } else r))).find?
          (fun r => decide (r.contract_id = cid) && decide (r.user_address = addr)) =
          (t.map (fun r => if r.contract_id = cid ∧ r.user_address = addr then
            { r with status := status } else r)).find?
          (fun r => decide (r.contract_id = cid) && decide (r.user_address = addr)) :=
        List.find?_cons_of_neg _ hp
      rw [hfind2]
      exact ih h

/-- getUserContract after updateUserContractStatus on the same key. -/
lemma getUserContract_update (st : SystemState) (cid : ℤ) (addr : String)
    (status : UserContractStatus) (uc : UserContractRow)
    (h : getUserContract st cid addr = some uc) :
    getUserContract (updateUserContractStatus st cid addr status) cid addr =
      some { uc with status := status } := by
  unfold getUserContract updateUserContractStatus at *
  exact find_row_update st.userContracts cid addr status uc h

end ContractBackend

namespace ContractBackend.Scoring

/-! Analytic facts about Math.tanh needed for the display-score claims. -/

/-- tanh written through the exponential: tanh x = 1 - 2 / (e^(2x) + 1). -/
lemma tanh_eq_one_sub (x : ℝ) : Real.tanh x = 1 - 2 / (Real.exp (2 * x) + 1) := by
  have hex : (0 : ℝ) < Real.exp x := Real.exp_pos x
  rw [Real.tanh_eq_sinh_div_cosh, Real.sinh_eq, Real.cosh_eq, Real.exp_neg]
  have h2x : Real.exp (2 * x) = Real.exp x * Real.exp x := by
    rw [two_mul, Real.exp_add]
  rw [h2x]
  have h1 : Real.exp x + (Real.exp x)⁻¹ ≠ 0 := by positivity
  have h2 : Real.exp x * Real.exp x + 1 ≠ 0 := by positivity
  field_simp
  ring

/-- The subtracted term is positive. -/
lemma two_div_exp_pos (x : ℝ) : 0 < 2 / (Real.exp (2 * x) + 1) := by positivity

/-- The subtracted term is below 2. -/
lemma two_div_exp_lt_two (x : ℝ) : 2 / (Real.exp (2 * x) + 1) < 2 := by
  have h1 : (0 : ℝ) < Real.exp (2 * x) := Real.exp_pos _
  have h0 : (0 : ℝ) < Real.exp (2 * x) + 1 := by positivity
  rw [div_lt_iff₀ h0]
  nlinarith

/-- tanh stays below 1. -/
lemma tanh_lt_one (x : ℝ) : Real.tanh x < 1 := by
  rw [tanh_eq_one_sub]
  have := two_div_exp_pos x
  linarith

/-- tanh stays above -1. -/
lemma neg_one_lt_tanh (x : ℝ) : -1 < Real.tanh x := by
  rw [tanh_eq_one_sub]
  have := two_div_exp_lt_two x
  linarith

/-- tanh is monotone. -/
lemma tanh_monotone : Monotone Real.tanh := by
  intro a b hab
  rw [tanh_eq_one_sub, tanh_eq_one_sub]
  have h1 : Real.exp (2 * a) + 1 ≤ Real.exp (2 * b) + 1 := by
    have := Real.exp_le_exp.mpr (by linarith : 2 * a ≤ 2 * b)
    linarith
  have ha : (0 : ℝ) < Real.exp (2 * a) + 1 := by positivity
  have hdiv : 2 / (Real.exp (2 * b) + 1) ≤ 2 / (Real.exp (2 * a) + 1) :=
    div_le_div_of_nonneg_left (by norm_num) ha h1
  linarith

end ContractBackend.Scoring

namespace ContractBackend

/-- Claim C1, amended: when a trade event arrives for an active stream at or
past condition2, handleTradeMessage only stops the stream (deleting its config
and subscription) and performs no database writes — UserContract statuses and
the Contract row are left unchanged. -/
theorem deadline_stops_stream_only (now solPrice : ℚ) (st : SystemState)
    (message : TradeMessage) (config : StreamConfig)
    (hcfg : alistGet st.streamConfigs message.mint = some config)
    (hexp : config.condition2 ≤ now) :
    handleTradeMessage now solPrice st message = stopTradeStream st message.mint ∧
    (handleTradeMessage now solPrice st message).userContracts = st.userContracts ∧
    (handleTradeMessage now solPrice st message).contracts = st.contracts := by
  have h1 : handleTradeMessage now solPrice st message = stopTradeStream st message.mint := by
    unfold handleTradeMessage
    rw [hcfg]
    simp [checkCondition2, hexp]
  refine ⟨h1, ?_, ?_⟩ <;> rw [h1] <;> rfl

/-- Claim C1, counterexample to the original statement: at the deadline
(now = condition2 = 100) the stream for contract 1 is removed, but the
InProgress UserContract stays InProgress (it is not set to
CompletedCondition2), and the Contract is neither marked completed nor given
reason time_expired. -/
theorem deadline_no_db_writes_cex :
    (handleTradeMessage 100 100 stC1 msgC1).streamConfigs = [] ∧
    (handleTradeMessage 100 100 stC1 msgC1).userContracts.map (fun r => r.status) =
      [UserContractStatus.inProgress] ∧
    (handleTradeMessage 100 100 stC1 msgC1).contracts.map (fun c => c.is_completed) =
      [false] ∧
    (handleTradeMessage 100 100 stC1 msgC1).contracts.map (fun c => c.completion_reason) =
      [none] ∧
    ¬ ((handleTradeMessage 100 100 stC1 msgC1).userContracts.map (fun r => r.status) =
      [UserContractStatus.completedCondition2]) := by
  decide

/-- Claim C1, witness for the amended theorem at a concrete input. -/
theorem deadline_stops_stream_only_witness :
    handleTradeMessage 100 100 stC1 msgC1 = stopTradeStream stC1 msgC1.mint ∧
    (handleTradeMessage 100 100 stC1 msgC1).userContracts = stC1.userContracts ∧
    (handleTradeMessage 100 100 stC1 msgC1).contracts = stC1.contracts :=
  deadline_stops_stream_only 100 100 stC1 msgC1 cfgC1 (by decide) (by decide)

/-- Claim C2, amended: the signer filter runs before any processing — a trade
whose coalesced trader address is not in the non-empty signer list leaves the
whole state unchanged: no ATH update and no C1 market-cap check happen. -/
theorem signer_filter_blocks_all_processing (now solPrice : ℚ) (st : SystemState)
    (message : TradeMessage) (config : StreamConfig) (t : String)
    (hcfg : alistGet st.streamConfigs message.mint = some config)
    (hlive : ¬ (config.condition2 ≤ now))
    (hne : config.signers ≠ [])
    (ht : traderOf message = some t)
    (hnot : t ∉ config.signers) :
    handleTradeMessage now solPrice st message = st := by
  unfold handleTradeMessage
  rw [hcfg]
  have hlen : 0 < config.signers.length := List.length_pos.mpr hne
  simp [checkCondition2, hlive, shouldProcessTrade, hlen, ht, hnot]

/-- Claim C2, counterexample to the original statement: a non-signer trade with
marketCapSol 5000 (ath_usd 500000 at price 100, far above the 100000 target)
leaves the state untouched — the ATH stays 0 and the contract does not
complete. -/
theorem nonsigner_trade_ignored_cex :
    handleTradeMessage 0 100 stC2 msgC2 = stC2 ∧
    (alistGet (handleTradeMessage 0 100 stC2 msgC2).streamConfigs msgC2.mint).map
      (fun c => c.allTimeHigh) = some 0 ∧
    ¬ ((alistGet (handleTradeMessage 0 100 stC2 msgC2).streamConfigs msgC2.mint).map
      (fun c => c.allTimeHigh) = some 5000) ∧
    (handleTradeMessage 0 100 stC2 msgC2).contracts.map (fun c => c.is_completed) =
      [false] := by
  decide

/-- Claim C2, witness for the amended theorem at a concrete input. -/
theorem signer_filter_blocks_all_processing_witness :
    handleTradeMessage 0 100 stC2 msgC2 = stC2 :=
  signer_filter_blocks_all_processing 0 100 stC2 msgC2 cfgC2 "C"
    (by decide) (by decide) (by decide) (by decide) (by decide)

/-- Claim C3, amended: every completion write goes through markContractCompleted,
which sets only is_completed := true on the row with the given id;
completion_reason and completed_at are never written and keep their previous
values on every row. -/
theorem mark_completed_preserves_reason_and_at (st : SystemState) (cid : ℤ) :
    (markContractCompleted st cid).contracts.map (fun c => c.completion_reason) =
      st.contracts.map (fun c => c.completion_reason) ∧
    (markContractCompleted st cid).contracts.map (fun c => c.completed_at) =
      st.contracts.map (fun c => c.completed_at) ∧
    (markContractCompleted st cid).contracts.map (fun c => (c.id, c.is_completed)) =
      st.contracts.map (fun c => (c.id, if c.id = cid then true else c.is_completed)) := by
  rw [markContractCompleted_contracts]
  refine ⟨?_, ?_, ?_⟩ <;>
    · induction st.contracts with
      | nil => rfl
      | cons a t ih =>
        by_cases h : a.id = cid <;> simp [h, ih]

/-- Claim C3, counterexample to the original statement: completing contract 3
sets is_completed = true while completion_reason and completed_at stay unset in
the same write. -/
theorem mark_completed_sets_only_flag_cex :
    (markContractCompleted stC3 3).contracts.map
      (fun c => (c.is_completed, c.completion_reason, c.completed_at)) =
      [(true, none, none)] := by
  decide

end ContractBackend

namespace ContractBackend

/-- Claim C4, amended: startStreamForContract never consults the registry for an
AlreadyActive answer.  Whenever the contract loads, is not completed, has
signers, is before its deadline and has a valid mint, the call succeeds —
also when a stream for the contract is already active — replacing the
streamConfigs entry with a fresh config whose allTimeHigh is 0 and overwriting
the registry entry. -/
theorem start_not_guarded_by_registry (now : ℚ) (st : SystemState) (cid : ℤ)
    (contract : ContractRow)
    (hc : getContractById st cid = some contract)
    (hnc : contract.is_completed = false)
    (hs : (getUserContractsByContractId st cid).length ≠ 0)
    (hlive : ¬ (contract.condition2 ≤ now))
    (hm : ¬ (contract.mint.length < 32)) :
    (startStreamForContract now st cid).2 = true ∧
    (alistGet (startStreamForContract now st cid).1.streamConfigs contract.mint).map
      (fun c => c.allTimeHigh) = some 0 ∧
    alistGet (startStreamForContract now st cid).1.activeStreams cid =
      some { contractId := cid, mintAddress := contract.mint, startedAt := now,
             condition1 := contract.condition1, condition2 := contract.condition2,
             signersCount := (getUserContractsByContractId st cid).length } := by
  unfold startStreamForContract
  rw [hc]
  simp only [hnc, Bool.false_eq_true, if_false, List.length_map, hs, hlive, hm,
    if_true, ite_false, ite_true]
  refine ⟨trivial, ?_, ?_⟩
  · rw [alistGet_alistSet_self]
    rfl
  · rw [alistGet_alistSet_self]

/-- Claim C4, counterexample to the original statement: contract 7 is already
in the registry with a running stream whose ATH is 800, yet a second start
returns plain success (true, not AlreadyActive) and resets the stored ATH to 0. -/
theorem second_start_resets_ath_cex :
    (startStreamForContract 100 stC4 7).2 = true ∧
    (alistGet stC4.streamConfigs mint32).map (fun c => c.allTimeHigh) = some 800 ∧
    (alistGet (startStreamForContract 100 stC4 7).1.streamConfigs mint32).map
      (fun c => c.allTimeHigh) = some 0 ∧
    ¬ ((alistGet (startStreamForContract 100 stC4 7).1.streamConfigs mint32).map
      (fun c => c.allTimeHigh) = some 800) := by
  decide

/-- Claim C4, witness for the amended theorem at a concrete input. -/
theorem start_not_guarded_by_registry_witness :
    (startStreamForContract 100 stC4 7).2 = true ∧
    (alistGet (startStreamForContract 100 stC4 7).1.streamConfigs conC4.mint).map
      (fun c => c.allTimeHigh) = some 0 ∧
    alistGet (startStreamForContract 100 stC4 7).1.activeStreams 7 =
      some { contractId := 7, mintAddress := conC4.mint, startedAt := 100,
             condition1 := conC4.condition1, condition2 := conC4.condition2,
             signersCount := (getUserContractsByContractId stC4 7).length } :=
  start_not_guarded_by_registry 100 stC4 7 conC4
    (by decide) (by decide) (by decide) (by decide) (by decide)

/-- Claim C5, amended: while attempts remain, attemptReconnect increments the
counter and schedules a retry after reconnectDelay * 2 ^ (attempt - 1)
(1000 ms base, so 1 s, 2 s, 4 s, 8 s, 16 s for attempts 1..5); once five
attempts are used up it emits the fatal error to every registered config and
changes nothing — in particular the subscription set is retained, not
cleared. -/
theorem reconnect_backoff_behavior (s : ReconnectState)
    (hdelay : s.reconnectDelay = 1000) :
    (s.reconnectAttempts < maxReconnectAttempts →
      attemptReconnect s =
        ({ s with reconnectAttempts := s.reconnectAttempts + 1 },
         ReconnectAction.scheduleRetry (1000 * 2 ^ s.reconnectAttempts))) ∧
    (maxReconnectAttempts ≤ s.reconnectAttempts →
      attemptReconnect s = (s, ReconnectAction.giveUp s.configContractIds) ∧
      (attemptReconnect s).1.subscriptions = s.subscriptions) := by
  constructor
  · intro h
    simp [attemptReconnect, Nat.not_le.mpr h, hdelay]
  · intro h
    simp [attemptReconnect, h]

/-- Claim C5, counterexample to the original statement: with all five attempts
used and a live subscription, attemptReconnect reports the fatal error to the
registered config but leaves the subscription set intact instead of clearing
it. -/
theorem max_reconnect_keeps_subscriptions_cex :
    attemptReconnect sGiveUp = (sGiveUp, ReconnectAction.giveUp [1]) ∧
    (attemptReconnect sGiveUp).1.subscriptions = ["M"] ∧
    ¬ ((attemptReconnect sGiveUp).1.subscriptions = []) := by
  decide

/-- Claim C5, witness for the amended theorem at concrete inputs: the third
attempt is scheduled after 1000 * 2 ^ 2 ms, and a state at the limit gives up
with subscriptions retained. -/
theorem reconnect_backoff_behavior_witness :
    attemptReconnect sRetry =
      ({ sRetry with reconnectAttempts := sRetry.reconnectAttempts + 1 },
       ReconnectAction.scheduleRetry (1000 * 2 ^ sRetry.reconnectAttempts)) ∧
    (attemptReconnect sGiveUp = (sGiveUp, ReconnectAction.giveUp sGiveUp.configContractIds) ∧
      (attemptReconnect sGiveUp).1.subscriptions = sGiveUp.subscriptions) :=
  ⟨(reconnect_backoff_behavior sRetry rfl).1 (by decide),
   (reconnect_backoff_behavior sGiveUp rfl).2 (by decide)⟩

/-- Claim C6: getSolPrice performs no validation.  A 200 response whose JSON
body lacks the solPrice field resolves successfully with undefined (none)
instead of failing, a non-200 response with a body still resolves with its
field value, and only a fetch or parse failure is an error. -/
theorem getSolPrice_no_validation :
    getSolPrice (Except.ok { status := 200, body := { solPrice := none } }) =
      Except.ok none ∧
    getSolPrice (Except.ok { status := 404, body := { solPrice := some 5 } }) =
      Except.ok (some 5) ∧
    (∀ e : String, getSolPrice (Except.error e) = Except.error e) :=
  ⟨rfl, rfl, fun _ => rfl⟩

end ContractBackend

namespace ContractBackend

/-- getUserContract reads only the user_contract table. -/
lemma getUserContract_userContracts_eq (st stB : SystemState) (cid : ℤ) (addr : String)
    (h : stB.userContracts = st.userContracts) :
    getUserContract stB cid addr = getUserContract st cid addr := by
  unfold getUserContract
  rw [h]

/-- The state st after processTradeWithContractLogic writes the updated config
back into the map (a naming shorthand for the proofs below). -/
def withUpdatedConfig (st : SystemState) (trade : TradeMessage) (config : StreamConfig) :
    SystemState :=
  { st with streamConfigs := alistSet st.streamConfigs config.mintAddress (updateATH config trade) }

/-- The state after the break update inside processTradeWithContractLogic
(a naming shorthand for the proofs below). -/
def brokenState (st : SystemState) (trade : TradeMessage) (config : StreamConfig)
    (t : String) : SystemState :=
  updateUserContractStatus (withUpdatedConfig st trade config) config.contractId t UserContractStatus.broken

/-- Claim C7: for a signer-originated trade that does not complete the contract
via C1, the break check fires only when the row of the user is InProgress and marks
it Broken exactly when new_token_balance is strictly below the committed
supply; a balance equal to the supply is not a break and any non-InProgress
status is left unchanged. -/
theorem break_check_strict_inequality (solPrice : ℚ) (st : SystemState)
    (trade : TradeMessage) (config : StreamConfig) (t : String) (uc : UserContractRow)
    (hC1 : (updateATH config trade).allTimeHigh * solPrice < config.condition1)
    (ht : traderOf trade = some t)
    (hsig : t ∈ config.signers)
    (huc : getUserContract st config.contractId t = some uc) :
    (getUserContract (processTradeWithContractLogic solPrice st trade config)
        config.contractId t).map (fun r => r.status) =
      some (if uc.status = UserContractStatus.inProgress ∧
              trade.newTokenBalance < uc.supply
            then UserContractStatus.broken else uc.status) := by
  have hnle : ¬ (config.condition1 ≤ (updateATH config trade).allTimeHigh * solPrice) :=
    not_le.mpr hC1
  have hst1uc : getUserContract (withUpdatedConfig st trade config) config.contractId t =
      some uc := huc
  have hmain : processTradeWithContractLogic solPrice st trade config =
      (if uc.status = UserContractStatus.inProgress then
        (if trade.newTokenBalance < uc.supply then
          (if checkAllUsersFailed (brokenState st trade config t) config.contractId then
            stopTradeStream (completeContractAllFailed (brokenState st trade config t) config.contractId) config.mintAddress
           else brokenState st trade config t)
         else withUpdatedConfig st trade config)
       else withUpdatedConfig st trade config) := by
    simp only [processTradeWithContractLogic, updateATH_condition1, updateATH_signers,
      updateATH_contractId, updateATH_mintAddress]
    rw [if_neg hnle]
    simp only [ht]
    rw [if_pos hsig]
    have hget := hst1uc
    simp only [withUpdatedConfig] at hget
    rw [hget]
    rfl
  rw [hmain]
  by_cases hstat : uc.status = UserContractStatus.inProgress
  · rw [if_pos hstat]
    by_cases hbal : trade.newTokenBalance < uc.supply
    · rw [if_pos hbal, if_pos (And.intro hstat hbal)]
      have hst2 : getUserContract (brokenState st trade config t) config.contractId t =
          some { uc with status := UserContractStatus.broken } :=
        getUserContract_update _ _ _ _ _ hst1uc
      split
      · have hpre : (stopTradeStream (completeContractAllFailed (brokenState st trade config t) config.contractId) config.mintAddress).userContracts = (brokenState st trade config t).userContracts := by
          simp
        rw [getUserContract_userContracts_eq (brokenState st trade config t) _ config.contractId t hpre]
        rw [hst2]
        rfl
      · rw [hst2]
        rfl
    · rw [if_neg hbal, if_neg (fun hand => hbal hand.2)]
      rw [hst1uc]
      rfl
  · rw [if_neg hstat, if_neg (fun hand => hstat hand.1)]
    rw [hst1uc]
    rfl

/-- Claim C7, witness at a concrete input: signer A with supply 500 trades down
to balance 499 while the C1 check fails, and the row becomes Broken. -/
theorem break_check_strict_inequality_witness :
    (getUserContract (processTradeWithContractLogic 1 stC7 tradeC7 cfgC7)
        cfgC7.contractId "A").map (fun r => r.status) =
      some (if rowC7.status = UserContractStatus.inProgress ∧
              tradeC7.newTokenBalance < rowC7.supply
            then UserContractStatus.broken else rowC7.status) :=
  break_check_strict_inequality 1 stC7 tradeC7 cfgC7 "A" rowC7
    (by norm_num [updateATH, cfgC7, tradeC7]) (by decide) (by decide) (by decide)

end ContractBackend

namespace ContractBackend

set_option linter.unusedTactic false in
/-- Claim C8: the ATH step of processTradeWithContractLogic computes exactly
max(previous ath, event.market_cap_sol); over any sequence of trades the ATH is
non-decreasing; and processTradeWithContractLogic either stores the config with
the updated ATH under its mint or has stopped the stream (never a stale or
lowered value). -/
theorem ath_update_is_max_and_monotone :
    (∀ (config : StreamConfig) (trade : TradeMessage),
      (updateATH config trade).allTimeHigh = max config.allTimeHigh trade.marketCapSol) ∧
    (∀ (config : StreamConfig) (trades : List TradeMessage),
      config.allTimeHigh ≤ (trades.foldl updateATH config).allTimeHigh) ∧
    (∀ (solPrice : ℚ) (st : SystemState) (trade : TradeMessage) (config : StreamConfig),
      alistGet (processTradeWithContractLogic solPrice st trade config).streamConfigs
          config.mintAddress = some (updateATH config trade) ∨
      alistGet (processTradeWithContractLogic solPrice st trade config).streamConfigs
          config.mintAddress = none) := by
  have hmax : ∀ (config : StreamConfig) (trade : TradeMessage),
      (updateATH config trade).allTimeHigh = max config.allTimeHigh trade.marketCapSol := by
    intro config trade
    unfold updateATH
    split
    · next h => exact (max_eq_right (le_of_lt h)).symm
    · next h => exact (max_eq_left (not_lt.mp h)).symm
  refine ⟨hmax, ?_, ?_⟩
  · intro config trades
    induction trades generalizing config with
    | nil => exact le_refl _
    | cons a t ih =>
      rw [List.foldl_cons]
      exact le_trans (by rw [hmax]; exact le_max_left _ _) (ih (updateATH config a))
  · intro solPrice st trade config
    simp only [processTradeWithContractLogic, updateATH_mintAddress, updateATH_condition1,
      updateATH_signers, updateATH_contractId]
    split
    · right
      simp [stopTradeStream, alistGet_eraseKey]
    · repeat' split
      all_goals first
        | (right; simp [stopTradeStream, alistGet_eraseKey]; done)
        | (left; simp [updateUserContractStatus, alistGet_alistSet_self]; done)

end ContractBackend

namespace ContractBackend.Scoring

/-- Claim C9: processContractEvent stores the raw total exactly as
previous + delta with no clamping, the stored raw value ranges over every
rational (unbounded in both directions), and the display score is
tanh(raw / ASYMPTOTE_SCALING_FACTOR) * ASYMPTOTE_LIMIT, which is monotone in
the raw score and bounded in absolute value by ASYMPTOTE_LIMIT. -/
theorem scoring_raw_unbounded_display_tanh :
    (∀ (now : ℚ) (scores : UserScores) (event : ContractEvent),
      (processContractEvent now scores event).1 event.userId =
        some (getUserRawScore scores event.userId +
          (processContractEvent now scores event).2.scoreChange)) ∧
    (∀ target : ℚ, ∃ (scores : UserScores) (event : ContractEvent) (now : ℚ),
      (processContractEvent now scores event).1 event.userId = some target) ∧
    (∀ r : ℝ, applyAsymptote r =
      Real.tanh (r / ((ASYMPTOTE_SCALING_FACTOR : ℚ) : ℝ)) * ((ASYMPTOTE_LIMIT : ℚ) : ℝ)) ∧
    Monotone applyAsymptote ∧
    (∀ r : ℝ, |applyAsymptote r| < ((ASYMPTOTE_LIMIT : ℚ) : ℝ)) ∧
    (∀ (now : ℚ) (scores : UserScores) (event : ContractEvent),
      ((processContractEvent now scores event).2).newScore =
        applyAsymptote (((processContractEvent now scores event).2.newRawScore : ℝ))) := by
  have hS : (0 : ℝ) < ((ASYMPTOTE_SCALING_FACTOR : ℚ) : ℝ) := by
    norm_num [ASYMPTOTE_SCALING_FACTOR]
  have hL : (0 : ℝ) < ((ASYMPTOTE_LIMIT : ℚ) : ℝ) := by
    norm_num [ASYMPTOTE_LIMIT]
  refine ⟨?_, ?_, fun r => rfl, ?_, ?_, fun now scores event => rfl⟩
  · intro now scores event
    cases h : event.trueCondition <;>
      simp [processContractEvent, h, setUserRawScore]
  · intro target
    refine ⟨fun _ => some target,
      { userId := "u", contractRespected := true, buyAmount := 0,
        diffWithCondition := 0, trueCondition := TrueCondition.one, signed_at := none },
      0, ?_⟩
    simp [processContractEvent, getUserRawScore, setUserRawScore]
    left
    norm_num [MAX_BUY_AMOUNT_FOR_BONUS]
  · intro a b hab
    unfold applyAsymptote
    have hdiv : a / ((ASYMPTOTE_SCALING_FACTOR : ℚ) : ℝ) ≤
        b / ((ASYMPTOTE_SCALING_FACTOR : ℚ) : ℝ) := by gcongr
    exact mul_le_mul_of_nonneg_right (tanh_monotone hdiv) (le_of_lt hL)
  · intro r
    unfold applyAsymptote
    rw [abs_mul, abs_of_pos hL]
    have h1 : |Real.tanh (r / ((ASYMPTOTE_SCALING_FACTOR : ℚ) : ℝ))| < 1 :=
      abs_lt.mpr ⟨neg_one_lt_tanh _, tanh_lt_one _⟩
    calc |Real.tanh (r / ((ASYMPTOTE_SCALING_FACTOR : ℚ) : ℝ))| * ((ASYMPTOTE_LIMIT : ℚ) : ℝ)
        < 1 * ((ASYMPTOTE_LIMIT : ℚ) : ℝ) := by
          exact mul_lt_mul_of_pos_right h1 hL
      _ = ((ASYMPTOTE_LIMIT : ℚ) : ℝ) := one_mul _

/-- Claim C10: a scoring event touches only the entry of the user named in it;
the stored raw score of every other user is unchanged. -/
theorem scoring_frame_property (now : ℚ) (scores : UserScores) (event : ContractEvent)
    (u : String) (h : u ≠ event.userId) :
    (processContractEvent now scores event).1 u = scores u := by
  cases hev : event.trueCondition <;>
    simp [processContractEvent, hev, setUserRawScore, h]

/-- Claim C10, witness at a concrete input: processing an event for alice
leaves the entry of bob untouched. -/
theorem scoring_frame_property_witness :
    (processContractEvent 0 scoresC10 eventC10).1 "bob" = scoresC10 "bob" :=
  scoring_frame_property 0 scoresC10 eventC10 "bob" (by decide)

end ContractBackend.Scoring
